import Mathlib

/-!
Verification development for the Requirement Quality Analysis Pipeline of
srisun88/NLPProgram (src/RunBAFile.py).

The Python source is shallowly embedded: each checker becomes a pure Lean
function over `String` (a missing or non-string input cell is modelled as
`Option.none`), and Python string primitives (`in`, `find`, `strip`, `lower`,
`split`, `count`, the two regular expressions used by the source) are given
explicit executable definitions over `List Char`.  Code that can raise a
Python exception (`gherkin_rewrite`) is embedded in `Except`, with the error
value naming the Python exception that the corresponding input triggers.
-/

namespace RunBA

/-- Python str.lower, mapped over the underlying character list (the source
only ever feeds ASCII text to it). -/
def lowerS (s : String) : String := ⟨s.data.map Char.toLower⟩

/-- Python str.strip: drop leading and trailing whitespace. -/
def trimS (s : String) : String :=
  ⟨((s.data.dropWhile Char.isWhitespace).reverse.dropWhile Char.isWhitespace).reverse⟩

/-- Index of the first occurrence of `pat` in a character list, scanning left
to right, as Python substring search does. -/
def findSubAux (pat : List Char) : List Char → Option Nat
  | [] => if pat.isEmpty then some 0 else none
  | c :: tl =>
    if pat.isPrefixOf (c :: tl) then some 0 else (findSubAux pat tl).map (· + 1)

/-- Python membership test `pat in s` for strings (substring containment). -/
def containsSub (s pat : String) : Bool := (findSubAux pat.data s.data).isSome

/-- Python str.find: first occurrence index of `pat` in `s`, or -1. -/
def pyFind (s pat : String) : Int :=
  match findSubAux pat.data s.data with
  | some n => (n : Int)
  | none => -1

/-- Accumulator pass for whitespace splitting; produces the raw segments
between whitespace characters (possibly empty segments). -/
def splitWsAux : List Char → List Char → List String
  | acc, [] => [⟨acc.reverse⟩]
  | acc, c :: tl =>
    if c.isWhitespace then ⟨acc.reverse⟩ :: splitWsAux [] tl
    else splitWsAux (c :: acc) tl

/-- Python str.split with no argument: split on whitespace runs, discarding
empty segments (so the empty or all-whitespace string yields the empty list). -/
def pySplit (s : String) : List String :=
  (splitWsAux [] s.data).filter (fun w => !(w == ""))

/-- Fuelled scan for Python str.count: counts non-overlapping occurrences of
`pat`, resuming after the end of each match exactly as CPython does.  The fuel
is the length of the scanned list, which bounds the number of scan steps; the
fuel makes the recursion structural so that concrete inputs evaluate inside
the kernel. -/
def countSubAux (pat : List Char) : Nat → List Char → Nat
  | 0, _ => 0
  | _ + 1, [] => 0
  | fuel + 1, c :: tl =>
    if pat.isPrefixOf (c :: tl) then
      1 + countSubAux pat fuel (tl.drop (pat.length - 1))
    else countSubAux pat fuel tl

/-- Python t.count(pat) for a non-empty pattern. -/
def countSub (pat t : String) : Nat := countSubAux pat.data t.data.length t.data

/-- Python regex word character (ASCII regime): letters, digits, underscore. -/
def isWordChar (c : Char) : Bool := c.isAlphanum || c == '_'

/-- Match a literal character sequence at the head of the list, returning the
remainder on success. -/
def matchLit : List Char → List Char → Option (List Char)
  | [], l => some l
  | _ :: _, [] => none
  | p :: ps, c :: cs => if p == c then matchLit ps cs else none

/-- Match the alternative `part\s*\d` of the Independent-axis regex at the
head of the list: the literal "part", then any run of whitespace, then one
digit.  Greedy whitespace skipping is exact here because a digit is never
whitespace. -/
def matchPartNum (l : List Char) : Option (List Char) :=
  match matchLit ("part".data) l with
  | none => none
  | some rest =>
    match rest.dropWhile Char.isWhitespace with
    | d :: cs => if d.isDigit then some cs else none
    | [] => none

/-- Closing word boundary `\b` after a match whose last character is a word
character: satisfied at end of input or before a non-word character. -/
def tailBoundary : List Char → Bool
  | [] => true
  | c :: _ => !(isWordChar c)

/-- Does one alternative of `story|depends|subtask|part\s*\d` match at the
head of the list, with the closing `\b` satisfied?  All alternatives start
with a word character, so the opening `\b` is checked by the caller. -/
def altHit (l : List Char) : Bool :=
  (match matchLit ("story".data) l with
   | some r => tailBoundary r
   | none => false) ||
  (match matchLit ("depends".data) l with
   | some r => tailBoundary r
   | none => false) ||
  (match matchLit ("subtask".data) l with
   | some r => tailBoundary r
   | none => false) ||
  (match matchPartNum l with
   | some r => tailBoundary r
   | none => false)

/-- Scan every position of the list for a boundary-delimited hit of the
Independent-axis regex; `prev` is the character before the current position
(none at the start of the text). -/
def regexIndependentAux : Option Char → List Char → Bool
  | _, [] => false
  | prev, c :: tl =>
    ((match prev with
      | none => true
      | some p => !(isWordChar p)) && altHit (c :: tl))
    || regexIndependentAux (some c) tl

/-- Python re.search for the source pattern
`\b(story|depends|subtask|part\s*\d)\b`, as a Boolean match test. -/
def regexIndependent (s : String) : Bool := regexIndependentAux none s.data

/-- Python re.search for `\d+`, as a Boolean match test: some digit occurs. -/
def hasDigit (s : String) : Bool := s.data.any Char.isDigit

/-- Render a list of matched terms inside square brackets for a diagnostic
message.  The Python source interpolates a list or set here; its quoting of
the elements and, for sets, its iteration order are abstracted away, since no
checker result depends on the rendering. -/
def commaJoin : List String → String
  | [] => ""
  | [x] => x
  | x :: xs => x ++ ", " ++ commaJoin xs

/-- Bracketed rendering of a term list for diagnostic messages. -/
def listMsg (xs : List String) : String := "[" ++ commaJoin xs ++ "]"

/-- Incompleteness markers of the source (TBD_TERMS). -/
def TBD_TERMS : List String := ["tbd", "to be decided", "to be determined"]

/-- Hedge-word portion of the ambiguity vocabulary: the twelve literals that
the source writes inline before appending TBD_TERMS. -/
def HEDGE_TERMS : List String :=
  ["may", "might", "should", "could", "possibly", "approximately",
   "etc", "and/or", "various", "usually", "commonly", "sometime"]

/-- Ambiguity vocabulary of the source: AMBIGUOUS_TERMS = [hedge words] +
TBD_TERMS. -/
def AMBIGUOUS_TERMS : List String := HEDGE_TERMS ++ TBD_TERMS

/-- NFR category keyword map of the source (NFR_KEYWORDS). -/
def NFR_KEYWORDS : List (String × List String) :=
  [("performance", ["seconds", "load", "response", "latency"]),
   ("security", ["encrypt", "secure", "authentication"]),
   ("compatibility", ["chrome", "firefox", "mobile", "browser"]),
   ("error_handling", ["error", "invalid", "fail"]),
   ("availability", ["99%", "uptime", "sla"])]

/-- Gherkin rewrite engine (gherkin_rewrite).  A non-string input cell is
`none` and raises AttributeError at `ac_text.strip()`; a blank string reaches
`ac_text.split()[0]` on an empty list and raises IndexError.  The source
expression `ac_text.replace("Given", "Given")` (and likewise for "When") is
the identity on strings and is embedded as such. -/
def gherkin_rewrite (ac_text : Option String) : Except String String :=
  match ac_text with
  | none => Except.error "AttributeError: strip called on a non-string value"
  | some s =>
    let ac := lowerS (trimS s)
    if !(["given", "when", "then"].any fun k => containsSub ac k) then
      match pySplit s with
      | [] => Except.error "IndexError: list index out of range"
      | w :: _ =>
        Except.ok ("Given a valid user session, When " ++ lowerS w ++
          " action is triggered, Then " ++ s)
    else if containsSub ac "given" && !(containsSub ac "when") && containsSub ac "then" then
      Except.ok (s ++ "\nWhen action is triggered")
    else if containsSub ac "given" && containsSub ac "when" && !(containsSub ac "then") then
      Except.ok (s ++ "\nThen expected outcome")
    else Except.ok s

/-- Gherkin structure checker (gherkin_checker). -/
def gherkin_checker (ac_text : Option String) : String × String :=
  match ac_text with
  | none => ("Fail", "No AC provided.")
  | some s =>
    if (trimS s).length = 0 then ("Fail", "No AC provided.")
    else
      let ac := lowerS s
      if TBD_TERMS.any (fun term => containsSub ac term) then
        ("Fail", "AC contains TBD.")
      else
        let missing := ["given", "when", "then"].filter (fun w => !(containsSub ac w))
        if missing ≠ [] then
          ("Fail", "Missing Gherkin elements: " ++ listMsg missing)
        else if ¬ (pyFind ac "given" < pyFind ac "when" ∧
                   pyFind ac "when" < pyFind ac "then") then
          ("Fail", "Incorrect GWT order")
        else ("Pass", "Valid Gherkin format")

/-- Modelled from the spec: the tokenization performed by the external
linguistic analyzer (the `nlp` call of check_ambiguity, spacy).  Spec section
6 lists the analyzer as a collaborator outside the core that returns surface
tokens for a text; the model is whitespace tokenization, which agrees with
the analyzer on whitespace-separated, punctuation-free lowercase words — the
regime every concrete input used below stays in. -/
def spacyTokens (t : String) : List String := pySplit t

/-- Ambiguity checker (check_ambiguity).  The result triple is
(outcome, message, severity), all strings, exactly as in the source.  The
Python source collects matched tokens in a set; the model keeps the distinct
matched tokens in first-occurrence order. -/
def check_ambiguity (text : Option String) : String × String × String :=
  match text with
  | none => ("Fail", "No AC", "Critical")
  | some s =>
    let t := lowerS s
    let found := ((spacyTokens t).filter (fun tok => AMBIGUOUS_TERMS.contains tok)).dedup
    if found ≠ [] then
      if TBD_TERMS.any (fun term => containsSub t term) then
        ("Fail", "TBD: " ++ listMsg found, "Critical")
      else
        ("Fail", "Ambiguous: " ++ listMsg found, "Medium")
    else ("Pass", "Clear", "None")

/-- Score card of the INVEST evaluator: one Pass/Fail string per axis,
mirroring the six keys of the dictionary built by invest_scoring. -/
structure InvestScore where
  i_Independent : String
  n_Negotiable : String
  v_Valuable : String
  e_Estimable : String
  s_Small : String
  t_Testable : String

/-- Axis values of a score card in source order. -/
def investFields (sc : InvestScore) : List String :=
  [sc.i_Independent, sc.n_Negotiable, sc.v_Valuable,
   sc.e_Estimable, sc.s_Small, sc.t_Testable]

/-- Number of axes marked Fail, as the source computes it from the
dictionary values. -/
def investFailCount (sc : InvestScore) : Nat :=
  ((investFields sc).filter (fun v => v == "Fail")).length

/-- Summary string of invest_scoring as a function of the failure count. -/
def investSummary (n : Nat) : String :=
  if n = 0 then "Pass" else Nat.repr n ++ " INVEST weaknesses"

/-- UI and implementation terms of the Negotiable axis (ui_terms). -/
def ui_terms : List String := ["click button", "use react", "database table", "html"]

/-- INVEST evaluator (invest_scoring) on a string input (the non-string
guard of the source returns an empty dictionary and is exercised only by the
batch loop). -/
def invest_scoring (text : String) : InvestScore × String :=
  let t := lowerS text
  let score : InvestScore :=
    { i_Independent := if regexIndependent t then "Fail" else "Pass"
      n_Negotiable := if ui_terms.any (fun term => containsSub t term) then "Fail" else "Pass"
      v_Valuable := if !(containsSub t "so that") then "Fail" else "Pass"
      e_Estimable := if !(hasDigit t) then "Fail" else "Pass"
      s_Small :=
        if (pySplit text).length > 80 ∨ countSub " and " t > 2 then "Fail" else "Pass"
      t_Testable :=
        if !(["given", "then", "expected", "result"].any fun k => containsSub t k) then
          "Fail"
        else "Pass" }
  (score, investSummary (investFailCount score))

/-- NFR coverage checker (nfr_check).  The categories collected by the source
loop are pairwise distinct, so the `list(set(found))` in its message carries
the same elements as `found`. -/
def nfr_check (text : Option String) : String × String :=
  match text with
  | none => ("Fail", "No AC")
  | some s =>
    let found :=
      (NFR_KEYWORDS.filter (fun cw => cw.2.any (fun w => containsSub (lowerS s) w))).map
        (fun cw => cw.1)
    if found ≠ [] then ("Pass", "NFR: " ++ listMsg found)
    else ("Fail", "No NFR")

/-- Automation readiness score accumulated by automation_mapping: +2 when
all three Gherkin keywords occur, +2 when a digit occurs, +1 when
"error" or "invalid" occurs. -/
def autoScore (s : String) : Nat :=
  (if ["given", "when", "then"].all (fun k => containsSub (lowerS s) k) then 2 else 0) +
  (if hasDigit (lowerS s) then 2 else 0) +
  (if containsSub (lowerS s) "error" || containsSub (lowerS s) "invalid" then 1 else 0)

/-- Automation readiness mapper (automation_mapping). -/
def automation_mapping (text : Option String) : String × String :=
  match text with
  | none => ("Low", "Not automatable")
  | some s =>
    if autoScore s ≥ 4 then ("High", "Strong BDD candidate")
    else if autoScore s ≥ 2 then ("Medium", "Partial automation")
    else ("Low", "Weak automation")

/-- Does a Gherkin checker message report the TBD/incompleteness condition? -/
def gherkinIndicatesTBD (msg : String) : Bool := msg == "AC contains TBD."

/-- Does a Gherkin checker message report a structural failure (missing
keywords or wrong ordering)? -/
def gherkinIndicatesStructural (msg : String) : Bool :=
  ("Missing Gherkin elements".data.isPrefixOf msg.data) || msg == "Incorrect GWT order"

/-- Modelled from the spec: the Severity Merger (mergeSeverity) of spec
sections 4.7 and 6 is absent from src/RunBAFile.py — the batch loop discards
the severity returned by check_ambiguity — so it is modelled from the spec
text: a top-down, first-match-wins precedence over the Gherkin checker
message and the ambiguity severity. -/
def mergeSeverity (gherkinMsg ambSeverity : String) : String :=
  if gherkinIndicatesTBD gherkinMsg then "Critical"
  else if ambSeverity = "Critical" then "Critical"
  else if gherkinIndicatesStructural gherkinMsg then "High"
  else if ambSeverity = "Medium" then "Medium"
  else "None"

/-- A score card entry is one of the two literal outcomes. -/
def passFail (x : String) : Prop := x = "Pass" ∨ x = "Fail"

theorem str_length_eq_zero_iff (s : String) : s.length = 0 ↔ s = "" := by
  cases s with
  | mk data => simp [String.length, String.ext_iff, List.length_eq_zero]

theorem ite_fail_pass (c : Prop) [Decidable c] :
    passFail (if c then "Fail" else "Pass") := by
  by_cases h : c <;> simp [passFail, h]

theorem repr_summary_ne_pass (n : Nat) :
    Nat.repr n ++ " INVEST weaknesses" ≠ "Pass" := by
  intro h
  have hl := congrArg String.length h
  rw [String.length_append] at hl
  have h18 : (" INVEST weaknesses" : String).length = 18 := by decide
  have h4 : ("Pass" : String).length = 4 := by decide
  rw [h18, h4] at hl
  omega

theorem investSummary_eq_pass_iff (n : Nat) : investSummary n = "Pass" ↔ n = 0 := by
  constructor
  · intro hp
    by_contra h
    rw [investSummary, if_neg h] at hp
    exact repr_summary_ne_pass n hp
  · intro h
    simp [investSummary, h]

theorem investSummary_count (n : Nat) (h : n ≠ 0) :
    investSummary n = Nat.repr n ++ " INVEST weaknesses" := by
  simp [investSummary, h]

/-- Claim C1: the claim says every text containing an incompleteness marker
gets outcome Fail with severity Critical from check_ambiguity.  The code
violates this: the markers "to be decided" and "to be determined" are
multi-word entries of the vocabulary, the token loop can only ever match
single tokens, and the substring test over TBD_TERMS is only reached once
some single-token ambiguous term was found — so a text whose only flaw is a
multi-word marker is reported Pass with severity None, although the very
same text is flagged as TBD by gherkin_checker.  The single-token marker
"tbd" does behave as claimed. -/
theorem check_ambiguity_misses_multiword_marker :
    check_ambiguity (some "delivery date to be decided") = ("Pass", "Clear", "None") ∧
    (check_ambiguity (some "tbd")).2.2 = "Critical" ∧
    containsSub (lowerS "delivery date to be decided") "to be decided" = true ∧
    gherkin_checker (some "delivery date to be decided") = ("Fail", "AC contains TBD.") := by
  exact ⟨by decide, by decide, by decide, by decide⟩

/-- Claim C2: the claim says gherkin_rewrite returns an explicit refusal
sentinel on any text containing an incompleteness marker.  The code has no
refusal path at all: on the spec scenario input "The response time should be
tbd" it synthesizes a full Given/When/Then block instead of refusing. -/
theorem gherkin_rewrite_synthesizes_despite_tbd :
    gherkin_rewrite (some "The response time should be tbd") =
      Except.ok ("Given a valid user session, When the action is triggered, " ++
        "Then The response time should be tbd") ∧
    (check_ambiguity (some "The response time should be tbd")).2.2 = "Critical" := by
  exact ⟨rfl, by decide⟩

/-- Claim C3, counterexample: the claim says an empty input is treated like
an incompleteness marker, Fail with severity Critical; the code returns
outcome Pass with severity None on the empty string. -/
theorem check_ambiguity_empty_input_passes :
    (check_ambiguity (some "")).1 ≠ "Fail" ∧
    (check_ambiguity (some "")).2.2 ≠ "Critical" := by
  exact ⟨by decide, by decide⟩

/-- Claim C3, amended: only a non-string input is treated as missing and
yields Fail with severity Critical and the missing-input message "No AC";
an empty string is analyzed as ordinary text and yields Pass with severity
None. -/
theorem check_ambiguity_missing_input_amended :
    check_ambiguity none = ("Fail", "No AC", "Critical") ∧
    check_ambiguity (some "") = ("Pass", "Clear", "None") := by
  exact ⟨rfl, by decide⟩

/-- Claim C5: the claim says every per-row step returns a sentinel result so
the batch loop always emits one row per record.  The code violates this:
gherkin_rewrite raises IndexError on a blank Acceptance Criteria cell (the
indexing ac_text.split()[0] on an empty list) and AttributeError on a
non-string cell (ac_text.strip()), so the batch loop aborts instead of
emitting a row. -/
theorem pipeline_crashes_on_blank_or_missing_ac :
    gherkin_rewrite (some "") = Except.error "IndexError: list index out of range" ∧
    gherkin_rewrite none =
      Except.error "AttributeError: strip called on a non-string value" := by
  exact ⟨rfl, rfl⟩

/-- Claim C8, counterexample: the claim says no term belongs to both
vocabularies, but the source defines AMBIGUOUS_TERMS as the hedge words plus
TBD_TERMS, so the marker "tbd" belongs to both constants. -/
theorem tbd_in_both_vocabularies :
    AMBIGUOUS_TERMS.contains "tbd" = true ∧ TBD_TERMS.contains "tbd" = true := by
  exact ⟨by decide, by decide⟩

/-- Claim C8, amended: the hedge-word portion of the ambiguity vocabulary is
disjoint from the incompleteness markers, but AMBIGUOUS_TERMS itself is the
hedge words with TBD_TERMS appended, so every incompleteness marker also
belongs to the ambiguous-term constant; the vocabularies (and the NFR
keyword map) are fixed constants of the embedding that no operation
mutates. -/
theorem vocabularies_amended :
    HEDGE_TERMS.all (fun t => !(TBD_TERMS.contains t)) = true ∧
    TBD_TERMS.all (fun t => AMBIGUOUS_TERMS.contains t) = true ∧
    AMBIGUOUS_TERMS = HEDGE_TERMS ++ TBD_TERMS := by
  exact ⟨by decide, by decide, rfl⟩

/-- Claim C4: mergeSeverity applies a first-match-wins precedence: a Gherkin
TBD condition yields Critical; else ambiguity severity Critical yields
Critical; else a Gherkin missing-keyword or wrong-order condition yields
High; else ambiguity severity Medium yields Medium; else None.  The merger
is modelled from the spec, since no severity merger exists in the source
file. -/
theorem mergeSeverity_precedence (g a : String) :
    (gherkinIndicatesTBD g = true → mergeSeverity g a = "Critical") ∧
    (gherkinIndicatesTBD g = false → a = "Critical" → mergeSeverity g a = "Critical") ∧
    (gherkinIndicatesTBD g = false → a ≠ "Critical" →
      gherkinIndicatesStructural g = true → mergeSeverity g a = "High") ∧
    (gherkinIndicatesTBD g = false → a ≠ "Critical" →
      gherkinIndicatesStructural g = false → a = "Medium" → mergeSeverity g a = "Medium") ∧
    (gherkinIndicatesTBD g = false → a ≠ "Critical" →
      gherkinIndicatesStructural g = false → a ≠ "Medium" → mergeSeverity g a = "None") := by
  refine ⟨fun h1 => ?_, fun h1 h2 => ?_, fun h1 h2 h3 => ?_,
    fun h1 h2 h3 h4 => ?_, fun h1 h2 h3 h4 => ?_⟩ <;>
    simp [mergeSeverity, h1, *]

/-- Witness for claim C4: an out-of-order Gherkin verdict combined with a
Medium ambiguity severity merges to High, as in spec testable property 2. -/
theorem mergeSeverity_precedence_witness :
    mergeSeverity "Incorrect GWT order" "Medium" = "High" :=
  (mergeSeverity_precedence "Incorrect GWT order" "Medium").2.2.1
    (by decide) (by decide) (by decide)

/-- Claim C6: on a non-blank acceptance-criteria string with no
incompleteness marker and all three Gherkin keywords present as
case-insensitive substrings, gherkin_checker passes with the valid-Gherkin
message exactly when the first occurrence of "given" precedes that of
"when", which precedes that of "then", and otherwise fails with the
incorrect-order message. -/
theorem gherkin_checker_order (s : String)
    (h1 : trimS s ≠ "")
    (h2 : TBD_TERMS.any (fun term => containsSub (lowerS s) term) = false)
    (hg : containsSub (lowerS s) "given" = true)
    (hw : containsSub (lowerS s) "when" = true)
    (ht : containsSub (lowerS s) "then" = true) :
    gherkin_checker (some s) =
      if pyFind (lowerS s) "given" < pyFind (lowerS s) "when" ∧
         pyFind (lowerS s) "when" < pyFind (lowerS s) "then" then
        ("Pass", "Valid Gherkin format")
      else ("Fail", "Incorrect GWT order") := by
  have h1l : ¬ ((trimS s).length = 0) := fun h =>
    h1 ((str_length_eq_zero_iff (trimS s)).mp h)
  by_cases hord : pyFind (lowerS s) "given" < pyFind (lowerS s) "when" ∧
      pyFind (lowerS s) "when" < pyFind (lowerS s) "then" <;>
    simp [gherkin_checker, h1l, h2, hg, hw, ht, hord, List.filter]

/-- Witness for claim C6: a well-ordered Given/When/Then block passes. -/
theorem gherkin_checker_order_witness :
    gherkin_checker (some "given a when b then c") = ("Pass", "Valid Gherkin format") := by
  have h := gherkin_checker_order "given a when b then c"
    (by decide) (by decide) (by decide) (by decide) (by decide)
  rw [h]
  decide

/-- Claim C7: invest_scoring returns a score card whose six axis entries are
each Pass or Fail; the summary is "Pass" exactly when no axis failed, and
otherwise it reports exactly the number of Fail axes of the card. -/
theorem invest_scoring_summary (s : String) :
    (passFail (invest_scoring s).1.i_Independent ∧
     passFail (invest_scoring s).1.n_Negotiable ∧
     passFail (invest_scoring s).1.v_Valuable ∧
     passFail (invest_scoring s).1.e_Estimable ∧
     passFail (invest_scoring s).1.s_Small ∧
     passFail (invest_scoring s).1.t_Testable) ∧
    ((invest_scoring s).2 = "Pass" ↔ investFailCount (invest_scoring s).1 = 0) ∧
    (investFailCount (invest_scoring s).1 ≠ 0 →
      (invest_scoring s).2 =
        Nat.repr (investFailCount (invest_scoring s).1) ++ " INVEST weaknesses") := by
  have key : (invest_scoring s).2 = investSummary (investFailCount (invest_scoring s).1) := rfl
  refine ⟨⟨?_, ?_, ?_, ?_, ?_, ?_⟩, ?_, ?_⟩
  · exact ite_fail_pass _
  · exact ite_fail_pass _
  · exact ite_fail_pass _
  · exact ite_fail_pass _
  · exact ite_fail_pass _
  · exact ite_fail_pass _
  · rw [key]
    exact investSummary_eq_pass_iff _
  · intro h
    rw [key]
    exact investSummary_count _ h

/-- Witness for claim C7: the empty story fails the Valuable, Estimable and
Testable axes, and the summary reports exactly three weaknesses. -/
theorem invest_scoring_summary_witness :
    investFailCount (invest_scoring "").1 ≠ 0 ∧
    (invest_scoring "").2 = "3 INVEST weaknesses" := by
  refine ⟨by decide, ?_⟩
  have h := (invest_scoring_summary "").2.2 (by decide)
  exact h.trans (by decide)

/-- Claim C9: automation_mapping returns High exactly when the accumulated
score (+2 for all three Gherkin keywords, +2 for a digit, +1 for an
error/invalid keyword) is at least 4, Medium exactly when it is at least 2
but below 4, and Low otherwise; in particular the empty string maps to
Low. -/
theorem automation_mapping_tiers (s : String) :
    (automation_mapping (some s) = ("High", "Strong BDD candidate") ↔ autoScore s ≥ 4) ∧
    (automation_mapping (some s) = ("Medium", "Partial automation") ↔
      (autoScore s ≥ 2 ∧ autoScore s < 4)) ∧
    (automation_mapping (some s) = ("Low", "Weak automation") ↔ autoScore s < 2) ∧
    automation_mapping (some "") = ("Low", "Weak automation") := by
  by_cases h4 : autoScore s ≥ 4
  · have e : automation_mapping (some s) = ("High", "Strong BDD candidate") := by
      simp [automation_mapping, h4]
    rw [e]
    exact ⟨iff_of_true rfl h4, iff_of_false (by decide) (by omega),
      iff_of_false (by decide) (by omega), by decide⟩
  · by_cases h2 : autoScore s ≥ 2
    · have e : automation_mapping (some s) = ("Medium", "Partial automation") := by
        simp [automation_mapping, h4, h2]
      rw [e]
      exact ⟨iff_of_false (by decide) h4, iff_of_true rfl ⟨h2, by omega⟩,
        iff_of_false (by decide) (by omega), by decide⟩
    · have e : automation_mapping (some s) = ("Low", "Weak automation") := by
        simp [automation_mapping, h4, h2]
      rw [e]
      exact ⟨iff_of_false (by decide) h4, iff_of_false (by decide) (by omega),
        iff_of_true rfl (by omega), by decide⟩

/-- Witness for claim C9: a criterion with all three keywords, a digit and an
error keyword scores 5 and is tiered High. -/
theorem automation_mapping_tiers_witness :
    automation_mapping (some "given x when y then 3 error") =
      ("High", "Strong BDD candidate") :=
  (automation_mapping_tiers "given x when y then 3 error").1.mpr (by decide)

/-- Claim C10: when "given" is absent (case-insensitively) from the
acceptance criteria but "when" or "then" is present, gherkin_rewrite returns
the input unchanged — it synthesizes a missing When or Then clause only when
"given" is present, and never synthesizes a missing Given clause. -/
theorem gherkin_rewrite_no_given_unchanged (s : String)
    (hg : containsSub (lowerS (trimS s)) "given" = false)
    (hwt : containsSub (lowerS (trimS s)) "when" = true ∨
           containsSub (lowerS (trimS s)) "then" = true) :
    gherkin_rewrite (some s) = Except.ok s := by
  rcases hwt with h | h <;> simp [gherkin_rewrite, hg, h]

/-- Witness for claim C10: a criterion with When and Then but no Given is
returned unchanged. -/
theorem gherkin_rewrite_no_given_unchanged_witness :
    gherkin_rewrite (some "when x then y") = Except.ok "when x then y" :=
  gherkin_rewrite_no_given_unchanged "when x then y" (by decide) (Or.inl (by decide))

end RunBA
